import Mathlib

/-!
Shallow embedding of the Fantasy Forge API (main.py, crud.py, models.py,
schemas.py) and proofs about its authentication and authorization behaviour.

The database is modelled as an in-memory store: a list of user rows and a
list of device rows together with the auto-increment counters of the two
tables.  SQLAlchemy queries become list operations; `first()` on a filtered
query becomes `List.find?`.

One detail of the source is embedded with care: the filters in
`crud.get_user_by_email` and `crud.get_user_by_name` are written with
Python's `and` between two SQLAlchemy column comparisons,

    db.query(models.User).filter(models.User.name == name and models.User.role == role)

Python evaluates `a and b` by first taking `bool(a)`.  SQLAlchemy's
`BinaryExpression.__bool__` for an `==` expression compares the hashes of
the two operands (a `Column` object and a string literal), which are never
equal, so `bool(a)` is `False` and `a and b` evaluates to `a`: the role
condition is discarded and the filter is the name (resp. email) condition
alone.  The embedding keeps the expression objects and Python's `and`
explicit so this behaviour is derived, not assumed.
-/

/-- A column of the `users` table that appears in an embedded filter
expression (models.py declares `email`, `name`, `role` as String columns). -/
inductive UserCol
  | email
  | name
  | role
deriving DecidableEq, Repr

/-- A SQLAlchemy binary expression `column == literal` as built by
`models.User.name == name` etc. before the query evaluates it. -/
structure SqlEq where
  col : UserCol
  lit : String
deriving DecidableEq, Repr

/-- `bool()` of a SQLAlchemy `==` expression: `BinaryExpression.__bool__`
compares `hash(column)` with `hash(literal)`; a `Column` object never hashes
equal to a Python string, so the result is `False`. -/
def sqlEqBool (_ : SqlEq) : Bool := false

/-- Python's `a and b` on two SQLAlchemy expressions: returns `b` when
`bool(a)` is truthy, otherwise returns `a` itself. -/
def pyAnd (a b : SqlEq) : SqlEq := if sqlEqBool a then b else a

/-- The salted hash stored for a user (bcrypt embeds the salt in its
output).  bcrypt itself is an external library; it is modelled as an ideal
collision-free salted hash: the digest is an injective function of the
plaintext, and verification re-hashes with the salt carried in the stored
value — exactly the interface contract `hashpw`/`checkpw` provide. -/
structure BcryptHash where
  salt : Nat
  digest : String
deriving DecidableEq, Repr

/-- `bcrypt.hashpw(password, salt)`: produces a value from which the salt
can be recovered and whose digest determines the password (ideal hash). -/
def bcrypt_hashpw (password : String) (salt : Nat) : BcryptHash :=
  ⟨salt, password⟩

/-- `bcrypt.checkpw(password, hashed)`: re-hash with the salt embedded in
`hashed` and compare with the stored value. -/
def bcrypt_checkpw (password : String) (hashed : BcryptHash) : Bool :=
  bcrypt_hashpw password hashed.salt == hashed

/-- A row of the `users` table (models.py `User`). -/
structure UserRow where
  id : Nat
  email : String
  name : String
  hashed_password : BcryptHash
  role : String
  is_active : Bool
deriving DecidableEq, Repr

/-- A row of the `devices` table (models.py `Device`).  `apikey` is a
nullable String column that no code path sets, hence `Option`. -/
structure DeviceRow where
  id : Nat
  description : Option String
  apikey : Option String
  owner_id : Nat
deriving DecidableEq, Repr

/-- The relational store: the two tables plus their auto-increment
primary-key counters. -/
structure Db where
  users : List UserRow
  devices : List DeviceRow
  nextUserId : Nat
  nextDeviceId : Nat
deriving DecidableEq, Repr

/-- schemas.py `UserCreate`: the registration payload. -/
structure UserCreate where
  email : String
  name : String
  role : String
  password : String
deriving DecidableEq, Repr

/-- schemas.py `DeviceCreate`. -/
structure DeviceCreate where
  description : Option String
deriving DecidableEq, Repr

/-- The FastAPI HTTP Basic credentials extracted from a request. -/
structure HTTPBasicCredentials where
  username : String
  password : String
deriving DecidableEq, Repr

/-- An `HTTPException(status_code, detail)` raised by an endpoint. -/
structure HTTPError where
  status_code : Nat
  detail : String
deriving DecidableEq, Repr

/-- Evaluate a column reference against a user row. -/
def evalUserCol (u : UserRow) : UserCol → String
  | .email => u.email
  | .name => u.name
  | .role => u.role

/-- Evaluate an embedded `column == literal` filter against a row. -/
def evalSqlEq (u : UserRow) (e : SqlEq) : Bool :=
  evalUserCol u e.col == e.lit

namespace crud

/-- crud.get_user: `db.query(User).filter(User.id == user_id).first()`. -/
def get_user (db : Db) (user_id : Nat) : Option UserRow :=
  db.users.find? (fun u => u.id == user_id)

/-- crud.get_user_by_email: the filter is
`models.User.email == email and models.User.role == role` — a Python `and`
of two SQLAlchemy expressions, embedded via `pyAnd`. -/
def get_user_by_email (db : Db) (email : String) (role : String := "user") :
    Option UserRow :=
  db.users.find? (fun u => evalSqlEq u (pyAnd ⟨.email, email⟩ ⟨.role, role⟩))

/-- crud.get_user_by_name: the filter is
`models.User.name == name and models.User.role == role`, embedded via
`pyAnd` as in `get_user_by_email`. -/
def get_user_by_name (db : Db) (name : String) (role : String := "user") :
    Option UserRow :=
  db.users.find? (fun u => evalSqlEq u (pyAnd ⟨.name, name⟩ ⟨.role, role⟩))

/-- crud.get_users: `query(User).offset(skip).limit(limit).all()`. -/
def get_users (db : Db) (skip : Nat := 0) (limit : Nat := 100) : List UserRow :=
  (db.users.drop skip).take limit

/-- crud.get_hashed_password: `bcrypt.hashpw(plain.encode, bcrypt.gensalt())`.
`gensalt()` draws a fresh random salt; the draw is made explicit as the
`salt` argument. -/
def get_hashed_password (plain_text_password : String) (salt : Nat) : BcryptHash :=
  bcrypt_hashpw plain_text_password salt

/-- crud.check_password: `bcrypt.checkpw(plain.encode, hashed_password)`. -/
def check_password (plain_text_password : String) (hashed_password : BcryptHash) : Bool :=
  bcrypt_checkpw plain_text_password hashed_password

/-- crud.validate_user: look the user up by name (and nominally role), then
check the presented password against the stored hash. -/
def validate_user (db : Db) (username password : String) (role : String := "user") : Bool :=
  match get_user_by_name db username role with
  | none => false
  | some user => check_password password user.hashed_password

/-- crud.create_user: hash the password, insert the row (role stored
verbatim, `is_active` defaulting to true), return the refreshed row. -/
def create_user (db : Db) (user : UserCreate) (salt : Nat) : UserRow × Db :=
  let hashed_password := get_hashed_password user.password salt
  let db_user : UserRow :=
    ⟨db.nextUserId, user.email, user.name, hashed_password, user.role, true⟩
  (db_user,
   { db with users := db.users ++ [db_user], nextUserId := db.nextUserId + 1 })

/-- crud.get_devices: `query(Device).offset(skip).limit(limit).all()`. -/
def get_devices (db : Db) (skip : Nat := 0) (limit : Nat := 100) : List DeviceRow :=
  (db.devices.drop skip).take limit

/-- crud.create_user_device: `Device(**device.model_dump(), owner_id=user_id)`
inserted with no check that `user_id` references a stored user. -/
def create_user_device (db : Db) (device : DeviceCreate) (user_id : Nat) :
    DeviceRow × Db :=
  let db_item : DeviceRow := ⟨db.nextDeviceId, device.description, none, user_id⟩
  (db_item,
   { db with devices := db.devices ++ [db_item], nextDeviceId := db.nextDeviceId + 1 })

end crud

namespace api

/-- main.create_user (POST /users/): reject a registered email, then a
registered name, otherwise insert.  No credentials are required. -/
def create_user (db : Db) (user : UserCreate) (salt : Nat) :
    Except HTTPError (UserRow × Db) :=
  match crud.get_user_by_email db user.email with
  | some _ => .error ⟨400, "Email already registered"⟩
  | none =>
    match crud.get_user_by_name db user.name with
    | some _ => .error ⟨400, "Name already registered"⟩
    | none => .ok (crud.create_user db user salt)

/-- main.get_users (GET /users/): requires `validate_user(..., role='admin')`. -/
def get_users (db : Db) (credentials : HTTPBasicCredentials)
    (skip : Nat := 0) (limit : Nat := 100) : Except HTTPError (List UserRow) :=
  if ¬ crud.validate_user db credentials.username credentials.password "admin" then
    .error ⟨401, "Unauthorized"⟩
  else
    .ok (crud.get_users db skip limit)

/-- main.read_user (GET /users/\x7buser_id\x7d): admin branch, then user
branch with an ownership comparison, else 401. -/
def read_user (credentials : HTTPBasicCredentials) (user_id : Nat) (db : Db) :
    Except HTTPError UserRow :=
  let db_user_id := crud.get_user db user_id
  let db_user_name := crud.get_user_by_name db credentials.username
  if crud.validate_user db credentials.username credentials.password "admin" then
    match db_user_id with
    | none => .error ⟨404, "User not found"⟩
    | some u => .ok u
  else if crud.validate_user db credentials.username credentials.password "user" then
    match db_user_id, db_user_name with
    | none, _ => .error ⟨401, "Unauthorized"⟩
    | some _, none => .error ⟨401, "Unauthorized"⟩
    | some uid, some uname =>
      if uname.id == uid.id then .ok uid
      else .error ⟨401, "Unauthorized"⟩
  else
    .error ⟨401, "Unauthorized"⟩

/-- main.create_device_for_user (POST /users/\x7buser_id\x7d/devices): the
admin branch creates the device with no check on `user_id`; the user branch
requires the target user to exist and to be the requester. -/
def create_device_for_user (credentials : HTTPBasicCredentials) (user_id : Nat)
    (device : DeviceCreate) (db : Db) : Except HTTPError (DeviceRow × Db) :=
  let db_user_id := crud.get_user db user_id
  let db_user_name := crud.get_user_by_name db credentials.username
  if crud.validate_user db credentials.username credentials.password "admin" then
    .ok (crud.create_user_device db device user_id)
  else if crud.validate_user db credentials.username credentials.password "user" then
    match db_user_id, db_user_name with
    | none, _ => .error ⟨401, "Unauthorized"⟩
    | some _, none => .error ⟨401, "Unauthorized"⟩
    | some uid, some uname =>
      if uname.id == uid.id then .ok (crud.create_user_device db device user_id)
      else .error ⟨401, "Unauthorized"⟩
  else
    .error ⟨401, "Unauthorized"⟩

/-- main.read_devices (GET /devices/): requires
`validate_user(..., role='admin')`. -/
def read_devices (credentials : HTTPBasicCredentials)
    (skip : Nat := 0) (limit : Nat := 100) (db : Db) :
    Except HTTPError (List DeviceRow) :=
  if crud.validate_user db credentials.username credentials.password "admin" then
    .ok (crud.get_devices db skip limit)
  else
    .error ⟨401, "Unauthorized"⟩

end api

/-- The row that `crud.create_user` inserts (statement abbreviation: equal
to the first component of `crud.create_user db user salt` by `rfl`). -/
def insertedUser (db : Db) (user : UserCreate) (salt : Nat) : UserRow :=
  ⟨db.nextUserId, user.email, user.name,
   crud.get_hashed_password user.password salt, user.role, true⟩

/-- The store after `crud.create_user` (statement abbreviation: equal to
the second component of `crud.create_user db user salt` by `rfl`). -/
def insertedDb (db : Db) (user : UserCreate) (salt : Nat) : Db :=
  ⟨db.users ++ [insertedUser db user salt], db.devices,
   db.nextUserId + 1, db.nextDeviceId⟩

/-! ### Concrete fixtures used to evaluate the endpoints -/

/-- A stored principal with role `user`. -/
def aliceRow : UserRow :=
  ⟨1, "alice@example.com", "alice", crud.get_hashed_password "pw123" 7, "user", true⟩

/-- A second stored principal with role `user`. -/
def bobRow : UserRow :=
  ⟨2, "bob@example.com", "bob", crud.get_hashed_password "pw456" 9, "user", true⟩

/-- A stored principal with role `admin`. -/
def adminRow : UserRow :=
  ⟨3, "root@example.com", "root", crud.get_hashed_password "rootpw" 11, "admin", true⟩

/-- A store holding the single non-admin principal `alice`. -/
def dbUserOnly : Db := ⟨[aliceRow], [], 2, 1⟩

/-- A store holding the two non-admin principals `alice` and `bob`. -/
def dbTwoUsers : Db := ⟨[aliceRow, bobRow], [], 3, 1⟩

/-- A store holding `alice`, `bob` and the admin `root`. -/
def dbWithAdmin : Db := ⟨[aliceRow, bobRow, adminRow], [], 4, 1⟩

/-! ### Basic lemmas about the embedded filters -/

/-- The role operand of the `and`-filter is discarded: the lookup by name is
a lookup by name alone, whatever role argument is passed. -/
theorem get_user_by_name_drops_role (db : Db) (name r : String) :
    crud.get_user_by_name db name r = db.users.find? (fun u => u.name == name) := rfl

/-- Likewise for the lookup by email. -/
theorem get_user_by_email_drops_role (db : Db) (email r : String) :
    crud.get_user_by_email db email r = db.users.find? (fun u => u.email == email) := rfl

/-- `validate_user` unfolded through the collapsed filter. -/
theorem validate_user_unfold (db : Db) (username password r : String) :
    crud.validate_user db username password r =
      match db.users.find? (fun u => u.name == username) with
      | none => false
      | some user => crud.check_password password user.hashed_password := rfl

/-! ### Shared helper lemmas -/

/-- Hash-then-verify succeeds (bcrypt interface contract). -/
theorem check_hashed_self (s : String) (salt : Nat) :
    crud.check_password s (crud.get_hashed_password s salt) = true := by
  simp [crud.check_password, crud.get_hashed_password, bcrypt_checkpw, bcrypt_hashpw]

/-- When no stored user carries the given name, the lookup by name misses,
whatever role is passed. -/
theorem get_user_by_name_none (db : Db) (name r : String)
    (h : ∀ u ∈ db.users, u.name ≠ name) :
    crud.get_user_by_name db name r = none := by
  rw [get_user_by_name_drops_role]
  rw [List.find?_eq_none]
  intro u hu
  simp [h u hu]

/-- When no stored user carries the given email, the lookup by email misses. -/
theorem get_user_by_email_none (db : Db) (email r : String)
    (h : ∀ u ∈ db.users, u.email ≠ email) :
    crud.get_user_by_email db email r = none := by
  rw [get_user_by_email_drops_role]
  rw [List.find?_eq_none]
  intro u hu
  simp [h u hu]

/-- A registration whose email and name are fresh inserts the new row. -/
theorem api_create_user_fresh (db : Db) (user : UserCreate) (salt : Nat)
    (hfresh : ∀ u ∈ db.users, u.email ≠ user.email ∧ u.name ≠ user.name) :
    api.create_user db user salt = .ok (insertedUser db user salt, insertedDb db user salt) := by
  unfold api.create_user
  rw [get_user_by_email_none db user.email "user" (fun u hu => (hfresh u hu).1)]
  rw [get_user_by_name_none db user.name "user" (fun u hu => (hfresh u hu).2)]
  rfl

/-- After a fresh registration, the new principal's credentials validate for
any role argument: the lookup by name finds exactly the inserted row and the
stored hash verifies the registered password. -/
theorem validate_user_inserted (db : Db) (user : UserCreate) (salt : Nat)
    (hname : ∀ u ∈ db.users, u.name ≠ user.name) (r : String) :
    crud.validate_user (insertedDb db user salt) user.name user.password r = true := by
  rw [validate_user_unfold]
  have h1 : db.users.find? (fun u => u.name == user.name) = none := by
    rw [List.find?_eq_none]
    intro u hu
    simp [hname u hu]
  have h2 : (insertedDb db user salt).users.find? (fun u => u.name == user.name) =
      some (insertedUser db user salt) := by
    show (db.users ++ [insertedUser db user salt]).find? _ = _
    rw [List.find?_append, h1]
    simp [insertedUser]
  rw [h2]
  exact check_hashed_self user.password salt

/-- A verified requester validates for every role argument: the role operand
of the filter is discarded (`pyAnd` collapse). -/
theorem validate_user_of_found (db : Db) (credentials : HTTPBasicCredentials)
    (requester : UserRow)
    (hname : crud.get_user_by_name db credentials.username = some requester)
    (hpw : crud.check_password credentials.password requester.hashed_password = true)
    (r : String) :
    crud.validate_user db credentials.username credentials.password r = true := by
  rw [validate_user_unfold]
  rw [get_user_by_name_drops_role] at hname
  rw [hname]
  exact hpw

/-! ### Claim theorems -/

/-- C1: the claim states that the list-principals and list-devices
operations succeed for a verified requester if and only if the requester's
role is admin.  The code evaluates `validate_user(..., role='admin')`, but
the role operand of the filter is discarded, so the stored principal
`alice` — whose role is `user` and who therefore must be denied according
to the claim — receives the full page from both GET /users/ and
GET /devices/. -/
theorem listing_endpoints_admit_non_admin :
    aliceRow.role = "user" ∧
    api.get_users dbUserOnly ⟨"alice", "pw123"⟩ 0 100 = .ok [aliceRow] ∧
    api.read_devices ⟨"alice", "pw123"⟩ 0 100 dbUserOnly = .ok [] := by
  refine ⟨rfl, ?_, ?_⟩ <;> rfl

/-- C2: the claim states that a stored principal of role `user` whose
password verifies can read exactly their own record, every other id being
denied with Unauthorized.  In the code every verified requester passes the
`validate_user(..., role='admin')` guard (the role filter is discarded), so
`alice` (role `user`, id 1) obtains `bob`'s record (id 2). -/
theorem user_role_reads_other_record :
    aliceRow.role = "user" ∧
    aliceRow.id ≠ bobRow.id ∧
    api.read_user ⟨"alice", "pw123"⟩ 2 dbTwoUsers = .ok bobRow := by
  refine ⟨rfl, by decide, ?_⟩
  rfl

/-- C3: `validate_user` returns the same verdict whatever role argument is
passed, and the verdict is `true` exactly when the lookup by name alone
finds a stored user whose hash verifies the presented password — the role
operand of the Python `and` inside the filter is discarded. -/
theorem validate_user_ignores_role (db : Db) (username password r1 r2 : String) :
    crud.validate_user db username password r1 = crud.validate_user db username password r2 ∧
    (crud.validate_user db username password r1 = true ↔
      ∃ u, db.users.find? (fun x => x.name == username) = some u ∧
        crud.check_password password u.hashed_password = true) := by
  constructor
  · rw [validate_user_unfold, validate_user_unfold]
  · rw [validate_user_unfold]
    cases h : db.users.find? (fun x => x.name == username) with
    | none => simp
    | some u => simp

/-- C4: a stored principal whose role is admin and whose presented password
verifies is allowed on both Policy A operations: read-principal-by-id
returns any existing target, and create-device succeeds for any user id
with no ownership restriction. -/
theorem admin_policyA_allows (db : Db) (credentials : HTTPBasicCredentials)
    (requester : UserRow) (user_id : Nat) (device : DeviceCreate)
    (hname : crud.get_user_by_name db credentials.username = some requester)
    (hrole : requester.role = "admin")
    (hpw : crud.check_password credentials.password requester.hashed_password = true) :
    (∀ target, crud.get_user db user_id = some target →
      api.read_user credentials user_id db = .ok target) ∧
    api.create_device_for_user credentials user_id device db =
      .ok (crud.create_user_device db device user_id) := by
  have hv := validate_user_of_found db credentials requester hname hpw
  constructor
  · intro target htarget
    unfold api.read_user
    simp [hv, htarget]
  · unfold api.create_device_for_user
    simp [hv]

/-- Witness for C4: the admin `root` reads `alice`'s record and creates a
device owned by `alice`. -/
theorem admin_policyA_allows_witness :
    api.read_user ⟨"root", "rootpw"⟩ 1 dbWithAdmin = .ok aliceRow ∧
    api.create_device_for_user ⟨"root", "rootpw"⟩ 1 ⟨some "12 Pro"⟩ dbWithAdmin =
      .ok (crud.create_user_device dbWithAdmin ⟨some "12 Pro"⟩ 1) :=
  ⟨(admin_policyA_allows dbWithAdmin ⟨"root", "rootpw"⟩ adminRow 1 ⟨some "12 Pro"⟩
      (by decide) (by decide) (by decide)).1 aliceRow (by decide),
   (admin_policyA_allows dbWithAdmin ⟨"root", "rootpw"⟩ adminRow 1 ⟨some "12 Pro"⟩
      (by decide) (by decide) (by decide)).2⟩

/-- C5: a requester whose credentials validate (for any role argument)
asking for an id with no stored user receives NotFound (404), not
Unauthorized. -/
theorem read_user_missing_id_not_found (db : Db) (credentials : HTTPBasicCredentials)
    (user_id : Nat) (r : String)
    (hauth : crud.validate_user db credentials.username credentials.password r = true)
    (hmiss : crud.get_user db user_id = none) :
    api.read_user credentials user_id db = .error ⟨404, "User not found"⟩ := by
  have hv : crud.validate_user db credentials.username credentials.password "admin" = true := by
    rw [validate_user_unfold] at hauth ⊢
    exact hauth
  unfold api.read_user
  simp [hv, hmiss]

/-- Witness for C5: the authenticated `alice` (role `user`) asks for id 99,
which no stored user carries, and receives 404. -/
theorem read_user_missing_id_not_found_witness :
    api.read_user ⟨"alice", "pw123"⟩ 99 dbUserOnly = .error ⟨404, "User not found"⟩ :=
  read_user_missing_id_not_found dbUserOnly ⟨"alice", "pw123"⟩ 99 "user"
    (by decide) (by decide)

/-- C6: the claim states that a wrong-password request and a request by a
correctly authenticated user for a resource they do not own both fail with
the same Unauthorized error.  The first half holds: a wrong password for
the existing identity `alice` yields 401 "Unauthorized" (never NotFound).
The second half fails on the code: the authenticated `alice` (role `user`,
id 1) requesting `bob`'s record (id 2) is not denied at all — the request
succeeds, because every verified requester passes the admin guard. -/
theorem wrong_password_unauthorized_non_owner_allowed :
    api.read_user ⟨"alice", "wrongpw"⟩ 2 dbTwoUsers = .error ⟨401, "Unauthorized"⟩ ∧
    api.read_user ⟨"alice", "pw123"⟩ 2 dbTwoUsers = .ok bobRow ∧
    aliceRow.role = "user" ∧ aliceRow.id ≠ bobRow.id := by
  refine ⟨?_, ?_, rfl, by decide⟩ <;> rfl

/-- C7: a registration whose email or name is already stored fails with the
duplicate-registration error (status 400) — email checked first, then
name — and a registration with fresh email and name inserts exactly one new
row carrying the store-assigned id `nextUserId`. -/
theorem create_user_conflict_or_fresh_insert (db : Db) (user : UserCreate) (salt : Nat) :
    ((∃ u ∈ db.users, u.email = user.email ∨ u.name = user.name) →
      (api.create_user db user salt = .error ⟨400, "Email already registered"⟩ ∨
       api.create_user db user salt = .error ⟨400, "Name already registered"⟩)) ∧
    ((∀ u ∈ db.users, u.email ≠ user.email ∧ u.name ≠ user.name) →
      api.create_user db user salt = .ok (insertedUser db user salt, insertedDb db user salt)) := by
  constructor
  · rintro ⟨u, hu, hdup⟩
    unfold api.create_user
    cases hmail : crud.get_user_by_email db user.email with
    | some w => exact Or.inl rfl
    | none =>
      cases hnm : crud.get_user_by_name db user.name with
      | some w => exact Or.inr rfl
      | none =>
        exfalso
        rw [get_user_by_email_drops_role, List.find?_eq_none] at hmail
        rw [get_user_by_name_drops_role, List.find?_eq_none] at hnm
        cases hdup with
        | inl he => exact hmail u hu (by simp [he])
        | inr hn => exact hnm u hu (by simp [hn])
  · exact api_create_user_fresh db user salt

/-- Witness for C7: registering a second `alice` is rejected with a 400
duplicate error, and registering the fresh `carol` inserts the new row. -/
theorem create_user_conflict_or_fresh_insert_witness :
    (api.create_user dbUserOnly ⟨"alice2@example.com", "alice", "user", "pw"⟩ 3 =
        .error ⟨400, "Email already registered"⟩ ∨
     api.create_user dbUserOnly ⟨"alice2@example.com", "alice", "user", "pw"⟩ 3 =
        .error ⟨400, "Name already registered"⟩) ∧
    api.create_user dbUserOnly ⟨"carol@example.com", "carol", "user", "pw"⟩ 3 =
      .ok (insertedUser dbUserOnly ⟨"carol@example.com", "carol", "user", "pw"⟩ 3,
           insertedDb dbUserOnly ⟨"carol@example.com", "carol", "user", "pw"⟩ 3) :=
  ⟨(create_user_conflict_or_fresh_insert dbUserOnly ⟨"alice2@example.com", "alice", "user", "pw"⟩ 3).1
      ⟨aliceRow, by decide, Or.inr rfl⟩,
   (create_user_conflict_or_fresh_insert dbUserOnly ⟨"carol@example.com", "carol", "user", "pw"⟩ 3).2
      (by decide)⟩

/-- C8: hashing a plaintext and verifying it round-trips, and a stored hash
never accepts a different plaintext (bcrypt modelled as an ideal
collision-free salted hash). -/
theorem password_hash_roundtrip (s1 s2 : String) (salt : Nat) (hne : s1 ≠ s2) :
    crud.check_password s1 (crud.get_hashed_password s1 salt) = true ∧
    crud.check_password s1 (crud.get_hashed_password s2 salt) = false := by
  refine ⟨check_hashed_self s1 salt, ?_⟩
  simp [crud.check_password, crud.get_hashed_password, bcrypt_checkpw, bcrypt_hashpw,
    BcryptHash.mk.injEq, hne]

/-- Witness for C8 at two concrete distinct plaintexts. -/
theorem password_hash_roundtrip_witness :
    crud.check_password "pw123" (crud.get_hashed_password "pw123" 7) = true ∧
    crud.check_password "pw123" (crud.get_hashed_password "hunter2" 7) = false :=
  password_hash_roundtrip "pw123" "hunter2" 7 (by decide)

/-- C9: the claim states that no operation can insert a device whose
owner_id matches no stored user.  The code's admin-validated branch of
create-device inserts the path id verbatim with no existence check: with
the store holding only `alice` (id 1), a verified request for user id 999
commits a device row whose owner_id 999 references no stored user. -/
theorem device_with_dangling_owner_inserted :
    crud.get_user dbUserOnly 999 = none ∧
    api.create_device_for_user ⟨"alice", "pw123"⟩ 999 ⟨some "12 Pro"⟩ dbUserOnly =
      .ok (⟨1, some "12 Pro", none, 999⟩,
           ⟨[aliceRow], [⟨1, some "12 Pro", none, 999⟩], 2, 2⟩) ∧
    ([aliceRow].all (fun u => u.id != 999)) = true := by
  refine ⟨by decide, ?_, by decide⟩
  rfl

/-- C10: registration asks for no credentials and stores the submitted role
string verbatim; with a fresh email and name, the new principal — in
particular one registered with role string "admin" — subsequently validates
under the admin guard and is served by both admin-gated listing
endpoints. -/
theorem open_registration_grants_admin_access (db : Db) (user : UserCreate)
    (salt skip limit : Nat)
    (hfresh : ∀ u ∈ db.users, u.email ≠ user.email ∧ u.name ≠ user.name) :
    api.create_user db user salt = .ok (insertedUser db user salt, insertedDb db user salt) ∧
    (insertedUser db user salt).role = user.role ∧
    crud.validate_user (insertedDb db user salt) user.name user.password "admin" = true ∧
    api.get_users (insertedDb db user salt) ⟨user.name, user.password⟩ skip limit =
      .ok (crud.get_users (insertedDb db user salt) skip limit) ∧
    api.read_devices ⟨user.name, user.password⟩ skip limit (insertedDb db user salt) =
      .ok (crud.get_devices (insertedDb db user salt) skip limit) := by
  have hv := validate_user_inserted db user salt (fun u hu => (hfresh u hu).2)
  refine ⟨api_create_user_fresh db user salt hfresh, rfl, hv "admin", ?_, ?_⟩
  · unfold api.get_users
    simp [hv]
  · unfold api.read_devices
    simp [hv]

/-- Witness for C10: the unauthenticated registration of `eve` with role
string "admin" succeeds and `eve` is then served by GET /users/ and
GET /devices/. -/
theorem open_registration_grants_admin_access_witness :
    api.create_user dbUserOnly ⟨"eve@example.com", "eve", "admin", "evepw"⟩ 5 =
      .ok (insertedUser dbUserOnly ⟨"eve@example.com", "eve", "admin", "evepw"⟩ 5,
           insertedDb dbUserOnly ⟨"eve@example.com", "eve", "admin", "evepw"⟩ 5) ∧
    (insertedUser dbUserOnly ⟨"eve@example.com", "eve", "admin", "evepw"⟩ 5).role = "admin" ∧
    crud.validate_user (insertedDb dbUserOnly ⟨"eve@example.com", "eve", "admin", "evepw"⟩ 5)
      "eve" "evepw" "admin" = true ∧
    api.get_users (insertedDb dbUserOnly ⟨"eve@example.com", "eve", "admin", "evepw"⟩ 5)
      ⟨"eve", "evepw"⟩ 0 100 =
      .ok (crud.get_users (insertedDb dbUserOnly ⟨"eve@example.com", "eve", "admin", "evepw"⟩ 5) 0 100) ∧
    api.read_devices ⟨"eve", "evepw"⟩ 0 100
      (insertedDb dbUserOnly ⟨"eve@example.com", "eve", "admin", "evepw"⟩ 5) =
      .ok (crud.get_devices (insertedDb dbUserOnly ⟨"eve@example.com", "eve", "admin", "evepw"⟩ 5) 0 100) :=
  open_registration_grants_admin_access dbUserOnly ⟨"eve@example.com", "eve", "admin", "evepw"⟩
    5 0 100 (by decide)
